import Mathlib

/-!
Verification of the modbus client library (client.go, modbus.go, tlsclient.go).

Bytes are modelled as `Nat` (call sites keep them below 256, and the Go `uint8`
and `uint16` casts are written as explicit `% 256` / `% 65536`).  A Go byte
slice is a `List Nat`.  Fallible Go functions returning `(result, err)` become
`Except MbError result`.  The packager and transporter are interfaces whose
TCP implementation lives outside these sources, so the dispatcher pipeline
`send` is modelled at PDU level: it is parameterized by the decoded response
PDU, and every public operation additionally reports the list of request PDUs
that were handed to the transporter, so that claims about "no bytes sent" are
statable.  The Go `map[uint8][]byte` of readDeviceIdentification is modelled
as an association list in insertion order.
-/

namespace Modbus

/-- ProtocolDataUnit from modbus.go: a function code byte and a data payload. -/
structure ProtocolDataUnit where
  functionCode : Nat
  data : List Nat
deriving DecidableEq, Repr

/-- Error model.  `exception fc ec` is the Go `ModbusError{FunctionCode, ExceptionCode}`;
`validation` are the argument-range `fmt.Errorf` failures raised before anything is
sent; `mismatch` are the response-shape `fmt.Errorf` failures (messages kept
constant, the Go interpolated values dropped); `emptyResponse` is the
"modbus: response data is empty" failure; `readError` is an io error from
`bytes.Reader` (ReadByte / ReadFull hitting end of data). -/
inductive MbError where
  | validation : String → MbError
  | exception : Nat → Nat → MbError
  | mismatch : String → MbError
  | emptyResponse : MbError
  | readError : MbError
deriving DecidableEq, Repr

/-- Function code constants from modbus.go. -/
def FuncCodeReadCoils : Nat := 1

def FuncCodeReadDiscreteInputs : Nat := 2

def FuncCodeReadHoldingRegisters : Nat := 3

def FuncCodeReadInputRegisters : Nat := 4

def FuncCodeWriteSingleCoil : Nat := 5

def FuncCodeWriteSingleRegister : Nat := 6

def FuncCodeWriteMultipleCoils : Nat := 15

def FuncCodeWriteMultipleRegisters : Nat := 16

def FuncCodeWriteFileRecord : Nat := 21

def FuncCodeMaskWriteRegister : Nat := 22

def FuncCodeReadWriteMultipleRegisters : Nat := 23

def FuncCodeReadFIFOQueue : Nat := 24

def FuncCodeReadDeviceIdentification : Nat := 43

/-- Big-endian bytes of a uint16, as written by binary.BigEndian.PutUint16. -/
def uint16be (v : Nat) : List Nat :=
  [v % 65536 / 256, v % 256]

/-- dataBlock from client.go: the loop writing each uint16 value big-endian at
position 2*i of the output. -/
def dataBlock : List Nat → List Nat
  | [] => []
  | v :: rest => uint16be v ++ dataBlock rest

/-- dataBlockSuffix from client.go: the same loop over the values, then one byte
`uint8(len(suffix))` and the suffix copied verbatim. -/
def dataBlockSuffix (suffix : List Nat) : List Nat → List Nat
  | [] => suffix.length % 256 :: suffix
  | v :: rest => uint16be v ++ dataBlockSuffix suffix rest

/-- binary.BigEndian.Uint16 on a byte slice.  Go panics when fewer than two
bytes remain; every call site in client.go guards the length first, so the
out-of-range result 0 is never observed. -/
def bigEndianUint16 : List Nat → Nat
  | a :: b :: _ => a * 256 + b
  | _ => 0

/-- bytesToUint16s from client.go with binary.BigEndian: n = len(b)/2 pairs. -/
def bytesToUint16s : List Nat → List Nat
  | a :: b :: rest => (a * 256 + b) :: bytesToUint16s rest
  | _ => []

/-- responseError from client.go: ModbusError with the response function code,
and the first response data byte as exception code (zero value when empty). -/
def responseError (response : ProtocolDataUnit) : MbError :=
  .exception response.functionCode (response.data.headD 0)

/-- send from client.go, at PDU level: encode / transporter.Send / Verify /
Decode are interface calls whose TCP implementation is outside these sources,
so the pipeline is parameterized by the decoded response PDU.  After decoding,
the function-code comparison and the empty-data check are exactly the source. -/
def sendPdu (request response : ProtocolDataUnit) : Except MbError ProtocolDataUnit :=
  if response.functionCode ≠ request.functionCode then
    .error (responseError response)
  else if response.data = [] then
    .error .emptyResponse
  else
    .ok response

/-- ReadCoils from client.go.  The second component is the list of request PDUs
handed to the transporter (empty when validation fails before sending). -/
def ReadCoils (address quantity : Nat) (response : ProtocolDataUnit) :
    Except MbError (List Nat) × List ProtocolDataUnit :=
  if quantity < 1 ∨ quantity > 2000 then
    (.error (.validation "modbus: quantity must be between 1 and 2000"), [])
  else
    let request : ProtocolDataUnit := ⟨FuncCodeReadCoils, dataBlock [address, quantity]⟩
    (match sendPdu request response with
     | .error e => .error e
     | .ok resp =>
       if resp.data.headD 0 ≠ resp.data.length - 1 then
         .error (.mismatch "modbus: response data size does not match count")
       else
         .ok resp.data.tail,
     [request])

/-- ReadDiscreteInputs from client.go. -/
def ReadDiscreteInputs (address quantity : Nat) (response : ProtocolDataUnit) :
    Except MbError (List Nat) × List ProtocolDataUnit :=
  if quantity < 1 ∨ quantity > 2000 then
    (.error (.validation "modbus: quantity must be between 1 and 2000"), [])
  else
    let request : ProtocolDataUnit := ⟨FuncCodeReadDiscreteInputs, dataBlock [address, quantity]⟩
    (match sendPdu request response with
     | .error e => .error e
     | .ok resp =>
       if resp.data.headD 0 ≠ resp.data.length - 1 then
         .error (.mismatch "modbus: response data size does not match count")
       else
         .ok resp.data.tail,
     [request])

/-- ReadHoldingRegisters from client.go. -/
def ReadHoldingRegisters (address quantity : Nat) (response : ProtocolDataUnit) :
    Except MbError (List Nat) × List ProtocolDataUnit :=
  if quantity < 1 ∨ quantity > 125 then
    (.error (.validation "modbus: quantity must be between 1 and 125"), [])
  else
    let request : ProtocolDataUnit := ⟨FuncCodeReadHoldingRegisters, dataBlock [address, quantity]⟩
    (match sendPdu request response with
     | .error e => .error e
     | .ok resp =>
       if resp.data.headD 0 ≠ resp.data.length - 1 then
         .error (.mismatch "modbus: response data size does not match count")
       else
         .ok resp.data.tail,
     [request])

/-- ReadInputRegisters from client.go. -/
def ReadInputRegisters (address quantity : Nat) (response : ProtocolDataUnit) :
    Except MbError (List Nat) × List ProtocolDataUnit :=
  if quantity < 1 ∨ quantity > 125 then
    (.error (.validation "modbus: quantity must be between 1 and 125"), [])
  else
    let request : ProtocolDataUnit := ⟨FuncCodeReadInputRegisters, dataBlock [address, quantity]⟩
    (match sendPdu request response with
     | .error e => .error e
     | .ok resp =>
       if resp.data.headD 0 ≠ resp.data.length - 1 then
         .error (.mismatch "modbus: response data size does not match count")
       else
         .ok resp.data.tail,
     [request])

/-- WriteSingleCoil from client.go. -/
def WriteSingleCoil (address value : Nat) (response : ProtocolDataUnit) :
    Except MbError (List Nat) × List ProtocolDataUnit :=
  if value ≠ 0xFF00 ∧ value ≠ 0x0000 then
    (.error (.validation "modbus: state must be either 0xFF00 (ON) or 0x0000 (OFF)"), [])
  else
    let request : ProtocolDataUnit := ⟨FuncCodeWriteSingleCoil, dataBlock [address, value]⟩
    (match sendPdu request response with
     | .error e => .error e
     | .ok resp =>
       if resp.data.length ≠ 4 then
         .error (.mismatch "modbus: response data size does not match expected")
       else if address ≠ bigEndianUint16 resp.data then
         .error (.mismatch "modbus: response address does not match request")
       else if value ≠ bigEndianUint16 (resp.data.drop 2) then
         .error (.mismatch "modbus: response value does not match request")
       else
         .ok (resp.data.drop 2),
     [request])

/-- WriteSingleRegister from client.go. -/
def WriteSingleRegister (address value : Nat) (response : ProtocolDataUnit) :
    Except MbError (List Nat) × List ProtocolDataUnit :=
  let request : ProtocolDataUnit := ⟨FuncCodeWriteSingleRegister, dataBlock [address, value]⟩
  (match sendPdu request response with
   | .error e => .error e
   | .ok resp =>
     if resp.data.length ≠ 4 then
       .error (.mismatch "modbus: response data size does not match expected")
     else if address ≠ bigEndianUint16 resp.data then
       .error (.mismatch "modbus: response address does not match request")
     else if value ≠ bigEndianUint16 (resp.data.drop 2) then
       .error (.mismatch "modbus: response value does not match request")
     else
       .ok (resp.data.drop 2),
   [request])

/-- WriteMultipleCoils from client.go. -/
def WriteMultipleCoils (address quantity : Nat) (value : List Nat)
    (response : ProtocolDataUnit) :
    Except MbError (List Nat) × List ProtocolDataUnit :=
  if quantity < 1 ∨ quantity > 1968 then
    (.error (.validation "modbus: quantity must be between 1 and 1968"), [])
  else
    let request : ProtocolDataUnit :=
      ⟨FuncCodeWriteMultipleCoils, dataBlockSuffix value [address, quantity]⟩
    (match sendPdu request response with
     | .error e => .error e
     | .ok resp =>
       if resp.data.length ≠ 4 then
         .error (.mismatch "modbus: response data size does not match expected")
       else if address ≠ bigEndianUint16 resp.data then
         .error (.mismatch "modbus: response address does not match request")
       else if quantity ≠ bigEndianUint16 (resp.data.drop 2) then
         .error (.mismatch "modbus: response quantity does not match request")
       else
         .ok (resp.data.drop 2),
     [request])

/-- WriteMultipleRegisters from client.go. -/
def WriteMultipleRegisters (address quantity : Nat) (value : List Nat)
    (response : ProtocolDataUnit) :
    Except MbError (List Nat) × List ProtocolDataUnit :=
  if quantity < 1 ∨ quantity > 123 then
    (.error (.validation "modbus: quantity must be between 1 and 123"), [])
  else
    let request : ProtocolDataUnit :=
      ⟨FuncCodeWriteMultipleRegisters, dataBlockSuffix value [address, quantity]⟩
    (match sendPdu request response with
     | .error e => .error e
     | .ok resp =>
       if resp.data.length ≠ 4 then
         .error (.mismatch "modbus: response data size does not match expected")
       else if address ≠ bigEndianUint16 resp.data then
         .error (.mismatch "modbus: response address does not match request")
       else if quantity ≠ bigEndianUint16 (resp.data.drop 2) then
         .error (.mismatch "modbus: response quantity does not match request")
       else
         .ok (resp.data.drop 2),
     [request])

/-- MaskWriteRegister from client.go. -/
def MaskWriteRegister (address andMask orMask : Nat) (response : ProtocolDataUnit) :
    Except MbError (List Nat) × List ProtocolDataUnit :=
  let request : ProtocolDataUnit :=
    ⟨FuncCodeMaskWriteRegister, dataBlock [address, andMask, orMask]⟩
  (match sendPdu request response with
   | .error e => .error e
   | .ok resp =>
     if resp.data.length ≠ 6 then
       .error (.mismatch "modbus: response data size does not match expected")
     else if address ≠ bigEndianUint16 resp.data then
       .error (.mismatch "modbus: response address does not match request")
     else if andMask ≠ bigEndianUint16 (resp.data.drop 2) then
       .error (.mismatch "modbus: response AND-mask does not match request")
     else if orMask ≠ bigEndianUint16 (resp.data.drop 4) then
       .error (.mismatch "modbus: response OR-mask does not match request")
     else
       .ok (resp.data.drop 2),
   [request])

/-- ReadWriteMultipleRegisters from client.go. -/
def ReadWriteMultipleRegisters
    (readAddress readQuantity writeAddress writeQuantity : Nat) (value : List Nat)
    (response : ProtocolDataUnit) :
    Except MbError (List Nat) × List ProtocolDataUnit :=
  if readQuantity < 1 ∨ readQuantity > 125 then
    (.error (.validation "modbus: quantity to read must be between 1 and 125"), [])
  else if writeQuantity < 1 ∨ writeQuantity > 121 then
    (.error (.validation "modbus: quantity to write must be between 1 and 121"), [])
  else
    let request : ProtocolDataUnit :=
      ⟨FuncCodeReadWriteMultipleRegisters,
       dataBlockSuffix value [readAddress, readQuantity, writeAddress, writeQuantity]⟩
    (match sendPdu request response with
     | .error e => .error e
     | .ok resp =>
       if resp.data.headD 0 ≠ resp.data.length - 1 then
         .error (.mismatch "modbus: response data size does not match count")
       else
         .ok resp.data.tail,
     [request])

/-- ReadFIFOQueue from client.go. -/
def ReadFIFOQueue (address : Nat) (response : ProtocolDataUnit) :
    Except MbError (List Nat) × List ProtocolDataUnit :=
  let request : ProtocolDataUnit := ⟨FuncCodeReadFIFOQueue, dataBlock [address]⟩
  (match sendPdu request response with
   | .error e => .error e
   | .ok resp =>
     if resp.data.length < 4 then
       .error (.mismatch "modbus: response data size is less than expected")
     else if bigEndianUint16 resp.data ≠ resp.data.length - 1 then
       .error (.mismatch "modbus: response data size does not match count")
     else if bigEndianUint16 (resp.data.drop 2) > 31 then
       .error (.mismatch "modbus: fifo count is greater than expected")
     else
       .ok (resp.data.drop 4),
   [request])

/-- Request data built by WriteFileRecord in client.go: `uint8(count) * 2` is a
uint8 multiplication (wraps at 256), `7 + dataSize` is a uint8 addition, then
reference type 6, dataBlock of file number / record number / count, and the
register values big-endian. -/
def writeFileRecordRequestData (fileNumber recordNumber : Nat) (value : List Nat)
    (count : Nat) : List Nat :=
  (7 + count % 256 * 2 % 256) % 256 :: 6 ::
    (dataBlock [fileNumber, recordNumber, count] ++ dataBlock value)

/-- Response validation of WriteFileRecord in client.go, reading sequentially
from the response data with a bytes.Reader. -/
def writeFileRecordCheckResponse (fileNumber recordNumber : Nat) (value : List Nat)
    (count : Nat) : List Nat → Except MbError Unit
  | [] => .error .readError
  | responseSize :: rest0 =>
    if responseSize > 251 then
      .error (.mismatch "modbus: response size invalid")
    else
      match rest0 with
      | [] => .error .readError
      | respReferenceType :: rest1 =>
        if respReferenceType ≠ 6 then
          .error (.mismatch "modbus: response reference type invalid")
        else
          match rest1 with
          | f1 :: f2 :: rest2 =>
            if f1 * 256 + f2 ≠ fileNumber then
              .error (.mismatch "modbus: response file number invalid")
            else
              match rest2 with
              | r1 :: r2 :: rest3 =>
                if r1 * 256 + r2 ≠ recordNumber then
                  .error (.mismatch "modbus: response record number invalid")
                else
                  match rest3 with
                  | l1 :: l2 :: rest4 =>
                    if l1 * 256 + l2 ≠ count then
                      .error (.mismatch "modbus: response record length invalid")
                    else if rest4.length < (l1 * 256 + l2) * 2 then
                      .error .readError
                    else if value = bytesToUint16s (rest4.take ((l1 * 256 + l2) * 2)) then
                      .ok ()
                    else
                      .error (.mismatch "modbus: request and response file record does not match")
                  | _ => .error .readError
              | _ => .error .readError
          | _ => .error .readError

/-- WriteFileRecord from client.go. -/
def WriteFileRecord (fileNumber recordNumber : Nat) (value : List Nat) (count : Nat)
    (response : ProtocolDataUnit) :
    Except MbError Unit × List ProtocolDataUnit :=
  if fileNumber = 0 then
    (.error (.validation "modbus: invalid file number"), [])
  else if recordNumber > 0x270F then
    (.error (.validation "modbus: invalid record number"), [])
  else if count > 122 then
    (.error (.validation "modbus: invalid record count"), [])
  else
    let request : ProtocolDataUnit :=
      ⟨FuncCodeWriteFileRecord, writeFileRecordRequestData fileNumber recordNumber value count⟩
    (match sendPdu request response with
     | .error e => .error e
     | .ok resp => writeFileRecordCheckResponse fileNumber recordNumber value count resp.data,
     [request])

/-- Conformity level guard in readDeviceIdentification (client.go line 400):
the Go expression `respConformityLevel & 0x01 > 3`. -/
def conformityLevelInvalid (b : Nat) : Bool :=
  decide (b &&& 1 > 3)

/-- Object list loop of readDeviceIdentification: numberOfObjects iterations,
each reading an object id byte, a length byte, then that many value bytes with
io.ReadFull.  The Go map insertions are modelled as an association list in
insertion order. -/
def parseDeviceObjects : Nat → List Nat → Except MbError (List (Nat × List Nat))
  | 0, _ => .ok []
  | _ + 1, [] => .error .readError
  | _ + 1, [_] => .error .readError
  | n + 1, objID :: objLen :: rest =>
    if rest.length < objLen then
      .error .readError
    else
      match parseDeviceObjects n (rest.drop objLen) with
      | .error e => .error e
      | .ok tail => .ok ((objID, rest.take objLen) :: tail)

/-- readDeviceIdentification from client.go: builds the request
{0x0E, readDeviceIDCode, objectID}, then validates the response header fields
in source order and parses the object list. -/
def readDeviceIdentification (objectID readDeviceIDCode : Nat)
    (response : ProtocolDataUnit) :
    Except MbError (List (Nat × List Nat)) × List ProtocolDataUnit :=
  let request : ProtocolDataUnit :=
    ⟨FuncCodeReadDeviceIdentification, [14, readDeviceIDCode, objectID]⟩
  (match sendPdu request response with
   | .error e => .error e
   | .ok resp =>
     match resp.data with
     | respMeiType :: rest0 =>
       if respMeiType ≠ 14 then
         .error (.mismatch "modbus: response mei type does not match request")
       else
         match rest0 with
         | respDeviceIDCode :: rest1 =>
           if respDeviceIDCode ≠ readDeviceIDCode then
             .error (.mismatch "modbus: response device ID code does not match request")
           else
             match rest1 with
             | respConformityLevel :: rest2 =>
               if conformityLevelInvalid respConformityLevel then
                 .error (.mismatch "modbus: invalid response conformity level")
               else
                 match rest2 with
                 | moreFollows :: rest3 =>
                   if moreFollows ≠ 0 ∧ moreFollows ≠ 255 then
                     .error (.mismatch "modbus: invalid response more follows flag")
                   else
                     match rest3 with
                     | nextObjectID :: numberOfObjects :: rest4 =>
                       if nextObjectID ≠ 0 then
                         .error (.mismatch "modbus: currently not supporting multi-transaction responses")
                       else
                         parseDeviceObjects numberOfObjects rest4
                     | _ => .error .readError
                 | _ => .error .readError
             | _ => .error .readError
         | _ => .error .readError
     | [] => .error .readError,
   [request])

/-- Modelled from the spec: the constants tcpMaxLength and tcpHeaderSize are
declared in the TCP client file, which is not among these sources (tlsclient.go
only uses them); spec section 6 fixes "TCP max ADU 260 bytes; header size 7". -/
def tcpMaxLength : Nat := 260

/-- Modelled from the spec: see tcpMaxLength. -/
def tcpHeaderSize : Nat := 7

/-- Send of tlsTransporter in tlsclient.go, modelled on the incoming byte
stream of the connection.  The connection write, deadlines and logging leave no
trace in the returned value; the best-effort flush on a bad header length is
recorded as the boolean second component.  io.ReadFull fails when the stream
has fewer bytes than requested. -/
def tlsSend (_aduRequest stream : List Nat) : Except MbError (List Nat) × Bool :=
  if stream.length < tcpHeaderSize then
    (.error .readError, false)
  else
    let length := bigEndianUint16 (stream.drop 4)
    if length ≤ 0 then
      (.error (.mismatch "modbus: length in response header must not be zero"), true)
    else if length > tcpMaxLength - (tcpHeaderSize - 1) then
      (.error (.mismatch "modbus: length in response header must not be greater"), true)
    else if stream.length < length + (tcpHeaderSize - 1) then
      (.error .readError, false)
    else
      (.ok (stream.take (length + (tcpHeaderSize - 1))), false)

/-- Encoding of a device-identification object list as it appears in a
response: object id byte, length byte, value bytes, repeated. -/
def encodeObjects : List (Nat × List Nat) → List Nat
  | [] => []
  | (objID, val) :: rest => objID :: val.length :: (val ++ encodeObjects rest)

/-- Recognizer for the conformity-level rejection of readDeviceIdentification. -/
def isConformityError {α : Type} : Except MbError α → Bool
  | .error (.mismatch msg) => msg == "modbus: invalid response conformity level"
  | _ => false

/-! Helper lemmas shared by the claim theorems. -/

theorem sendPdu_of_match (request response : ProtocolDataUnit)
    (hfc : response.functionCode = request.functionCode) (hne : response.data ≠ []) :
    sendPdu request response = .ok response := by
  unfold sendPdu
  simp [hfc, hne]

theorem sendPdu_ok_inv (request response val : ProtocolDataUnit)
    (h : sendPdu request response = .ok val) : val = response := by
  unfold sendPdu at h
  split at h
  · exact absurd h (by simp)
  · split at h
    · exact absurd h (by simp)
    · exact (Except.ok.inj h).symm

theorem sendPdu_error_shape (request response : ProtocolDataUnit) (e : MbError)
    (h : sendPdu request response = .error e) :
    (∃ fc ec, e = .exception fc ec) ∨ e = .emptyResponse := by
  unfold sendPdu responseError at h
  split at h
  · exact Or.inl ⟨_, _, (Except.error.inj h).symm⟩
  · split at h
    · exact Or.inr (Except.error.inj h).symm
    · exact absurd h (by simp)

theorem conformity_guard_false (b : Nat) : conformityLevelInvalid b = false := by
  unfold conformityLevelInvalid
  have h : b &&& 1 = b % 2 := Nat.and_one_is_mod b
  simp only [h, decide_eq_false_iff_not]
  omega

theorem dataBlock_length (values : List Nat) :
    (dataBlock values).length = 2 * values.length := by
  induction values with
  | nil => rfl
  | cons v rest ih =>
    simp [dataBlock, uint16be, ih]
    omega

theorem dataBlockSuffix_eq (suffix values : List Nat) :
    dataBlockSuffix suffix values = dataBlock values ++ suffix.length % 256 :: suffix := by
  induction values with
  | nil => rfl
  | cons v rest ih =>
    simp [dataBlockSuffix, dataBlock, ih]

theorem dataBlock_eq_join (values : List Nat) (hv : ∀ v ∈ values, v < 65536) :
    dataBlock values = (values.map fun v => [v / 256, v % 256]).flatten := by
  induction values with
  | nil => rfl
  | cons v rest ih =>
    have hvlt : v < 65536 := hv v (by simp)
    simp only [dataBlock, uint16be, Nat.mod_eq_of_lt hvlt, List.map, List.flatten]
    rw [ih fun w hw => hv w (by simp [hw])]

theorem parseDeviceObjects_encodeObjects (objs : List (Nat × List Nat)) :
    parseDeviceObjects objs.length (encodeObjects objs) = .ok objs := by
  induction objs with
  | nil => rfl
  | cons hd tl ih =>
    obtain ⟨objID, val⟩ := hd
    show parseDeviceObjects (tl.length + 1)
      (objID :: val.length :: (val ++ encodeObjects tl)) = _
    unfold parseDeviceObjects
    rw [if_neg (by simp)]
    rw [List.drop_left, List.take_left, ih]

theorem bigEndianUint16_append (a : Nat) (l : List Nat) (ha : a < 65536) :
    bigEndianUint16 (uint16be a ++ l) = a := by
  simp only [uint16be, List.cons_append, List.nil_append, bigEndianUint16]
  omega

theorem uint16be_append_drop_two (a : Nat) (l : List Nat) :
    (uint16be a ++ l).drop 2 = l := by
  simp [uint16be]

theorem ReadCoils_eval (address quantity : Nat) (resp : ProtocolDataUnit)
    (hq1 : 1 ≤ quantity) (hq2 : quantity ≤ 2000)
    (hfc : resp.functionCode = FuncCodeReadCoils) (hne : resp.data ≠ []) :
    (ReadCoils address quantity resp).1 =
      if resp.data.headD 0 ≠ resp.data.length - 1 then
        .error (.mismatch "modbus: response data size does not match count")
      else
        .ok resp.data.tail := by
  unfold ReadCoils
  rw [if_neg (by omega)]
  have hsend := sendPdu_of_match ⟨FuncCodeReadCoils, dataBlock [address, quantity]⟩ resp hfc hne
  simp only [hsend]

theorem ReadDiscreteInputs_eval (address quantity : Nat) (resp : ProtocolDataUnit)
    (hq1 : 1 ≤ quantity) (hq2 : quantity ≤ 2000)
    (hfc : resp.functionCode = FuncCodeReadDiscreteInputs) (hne : resp.data ≠ []) :
    (ReadDiscreteInputs address quantity resp).1 =
      if resp.data.headD 0 ≠ resp.data.length - 1 then
        .error (.mismatch "modbus: response data size does not match count")
      else
        .ok resp.data.tail := by
  unfold ReadDiscreteInputs
  rw [if_neg (by omega)]
  have hsend := sendPdu_of_match ⟨FuncCodeReadDiscreteInputs, dataBlock [address, quantity]⟩ resp hfc hne
  simp only [hsend]

theorem ReadHoldingRegisters_eval (address quantity : Nat) (resp : ProtocolDataUnit)
    (hq1 : 1 ≤ quantity) (hq2 : quantity ≤ 125)
    (hfc : resp.functionCode = FuncCodeReadHoldingRegisters) (hne : resp.data ≠ []) :
    (ReadHoldingRegisters address quantity resp).1 =
      if resp.data.headD 0 ≠ resp.data.length - 1 then
        .error (.mismatch "modbus: response data size does not match count")
      else
        .ok resp.data.tail := by
  unfold ReadHoldingRegisters
  rw [if_neg (by omega)]
  have hsend := sendPdu_of_match ⟨FuncCodeReadHoldingRegisters, dataBlock [address, quantity]⟩ resp hfc hne
  simp only [hsend]

theorem ReadInputRegisters_eval (address quantity : Nat) (resp : ProtocolDataUnit)
    (hq1 : 1 ≤ quantity) (hq2 : quantity ≤ 125)
    (hfc : resp.functionCode = FuncCodeReadInputRegisters) (hne : resp.data ≠ []) :
    (ReadInputRegisters address quantity resp).1 =
      if resp.data.headD 0 ≠ resp.data.length - 1 then
        .error (.mismatch "modbus: response data size does not match count")
      else
        .ok resp.data.tail := by
  unfold ReadInputRegisters
  rw [if_neg (by omega)]
  have hsend := sendPdu_of_match ⟨FuncCodeReadInputRegisters, dataBlock [address, quantity]⟩ resp hfc hne
  simp only [hsend]

theorem ReadWriteMultipleRegisters_eval
    (readAddress readQuantity writeAddress writeQuantity : Nat) (value : List Nat)
    (resp : ProtocolDataUnit)
    (hr1 : 1 ≤ readQuantity) (hr2 : readQuantity ≤ 125)
    (hw1 : 1 ≤ writeQuantity) (hw2 : writeQuantity ≤ 121)
    (hfc : resp.functionCode = FuncCodeReadWriteMultipleRegisters) (hne : resp.data ≠ []) :
    (ReadWriteMultipleRegisters readAddress readQuantity writeAddress writeQuantity
        value resp).1 =
      if resp.data.headD 0 ≠ resp.data.length - 1 then
        .error (.mismatch "modbus: response data size does not match count")
      else
        .ok resp.data.tail := by
  unfold ReadWriteMultipleRegisters
  rw [if_neg (by omega), if_neg (by omega)]
  have hsend := sendPdu_of_match
    ⟨FuncCodeReadWriteMultipleRegisters,
     dataBlockSuffix value [readAddress, readQuantity, writeAddress, writeQuantity]⟩ resp hfc hne
  simp only [hsend]

theorem WriteSingleCoil_eval (address value : Nat) (d : List Nat)
    (hval : value = 0xFF00 ∨ value = 0) (hne : d ≠ []) :
    (WriteSingleCoil address value ⟨FuncCodeWriteSingleCoil, d⟩).1 =
      if d.length ≠ 4 then
        .error (.mismatch "modbus: response data size does not match expected")
      else if address ≠ bigEndianUint16 d then
        .error (.mismatch "modbus: response address does not match request")
      else if value ≠ bigEndianUint16 (d.drop 2) then
        .error (.mismatch "modbus: response value does not match request")
      else
        .ok (d.drop 2) := by
  unfold WriteSingleCoil
  rw [if_neg (by rcases hval with h | h <;> simp [h])]
  have hsend := sendPdu_of_match ⟨FuncCodeWriteSingleCoil, dataBlock [address, value]⟩
    ⟨FuncCodeWriteSingleCoil, d⟩ rfl hne
  simp only [hsend]

theorem WriteSingleRegister_eval (address value : Nat) (d : List Nat) (hne : d ≠ []) :
    (WriteSingleRegister address value ⟨FuncCodeWriteSingleRegister, d⟩).1 =
      if d.length ≠ 4 then
        .error (.mismatch "modbus: response data size does not match expected")
      else if address ≠ bigEndianUint16 d then
        .error (.mismatch "modbus: response address does not match request")
      else if value ≠ bigEndianUint16 (d.drop 2) then
        .error (.mismatch "modbus: response value does not match request")
      else
        .ok (d.drop 2) := by
  unfold WriteSingleRegister
  have hsend := sendPdu_of_match ⟨FuncCodeWriteSingleRegister, dataBlock [address, value]⟩
    ⟨FuncCodeWriteSingleRegister, d⟩ rfl hne
  simp only [hsend]

theorem WriteMultipleCoils_eval (address quantity : Nat) (value d : List Nat)
    (hq1 : 1 ≤ quantity) (hq2 : quantity ≤ 1968) (hne : d ≠ []) :
    (WriteMultipleCoils address quantity value ⟨FuncCodeWriteMultipleCoils, d⟩).1 =
      if d.length ≠ 4 then
        .error (.mismatch "modbus: response data size does not match expected")
      else if address ≠ bigEndianUint16 d then
        .error (.mismatch "modbus: response address does not match request")
      else if quantity ≠ bigEndianUint16 (d.drop 2) then
        .error (.mismatch "modbus: response quantity does not match request")
      else
        .ok (d.drop 2) := by
  unfold WriteMultipleCoils
  rw [if_neg (by omega)]
  have hsend := sendPdu_of_match ⟨FuncCodeWriteMultipleCoils, dataBlockSuffix value [address, quantity]⟩
    ⟨FuncCodeWriteMultipleCoils, d⟩ rfl hne
  simp only [hsend]

theorem WriteMultipleRegisters_eval (address quantity : Nat) (value d : List Nat)
    (hq1 : 1 ≤ quantity) (hq2 : quantity ≤ 123) (hne : d ≠ []) :
    (WriteMultipleRegisters address quantity value ⟨FuncCodeWriteMultipleRegisters, d⟩).1 =
      if d.length ≠ 4 then
        .error (.mismatch "modbus: response data size does not match expected")
      else if address ≠ bigEndianUint16 d then
        .error (.mismatch "modbus: response address does not match request")
      else if quantity ≠ bigEndianUint16 (d.drop 2) then
        .error (.mismatch "modbus: response quantity does not match request")
      else
        .ok (d.drop 2) := by
  unfold WriteMultipleRegisters
  rw [if_neg (by omega)]
  have hsend := sendPdu_of_match ⟨FuncCodeWriteMultipleRegisters, dataBlockSuffix value [address, quantity]⟩
    ⟨FuncCodeWriteMultipleRegisters, d⟩ rfl hne
  simp only [hsend]

theorem MaskWriteRegister_eval (address andMask orMask : Nat) (d : List Nat)
    (hne : d ≠ []) :
    (MaskWriteRegister address andMask orMask ⟨FuncCodeMaskWriteRegister, d⟩).1 =
      if d.length ≠ 6 then
        .error (.mismatch "modbus: response data size does not match expected")
      else if address ≠ bigEndianUint16 d then
        .error (.mismatch "modbus: response address does not match request")
      else if andMask ≠ bigEndianUint16 (d.drop 2) then
        .error (.mismatch "modbus: response AND-mask does not match request")
      else if orMask ≠ bigEndianUint16 (d.drop 4) then
        .error (.mismatch "modbus: response OR-mask does not match request")
      else
        .ok (d.drop 2) := by
  unfold MaskWriteRegister
  have hsend := sendPdu_of_match ⟨FuncCodeMaskWriteRegister, dataBlock [address, andMask, orMask]⟩
    ⟨FuncCodeMaskWriteRegister, d⟩ rfl hne
  simp only [hsend]

theorem parseDeviceObjects_cases (n : Nat) (bytes : List Nat) :
    (∃ l, parseDeviceObjects n bytes = .ok l) ∨
      parseDeviceObjects n bytes = .error .readError := by
  induction n generalizing bytes with
  | zero => exact Or.inl ⟨[], rfl⟩
  | succ m ih =>
    match bytes with
    | [] => exact Or.inr rfl
    | [_] => exact Or.inr rfl
    | objID :: objLen :: rest =>
      unfold parseDeviceObjects
      split
      · exact Or.inr rfl
      · rcases ih (rest.drop objLen) with ⟨l, hl⟩ | hl
        · rw [hl]
          exact Or.inl ⟨_, rfl⟩
        · rw [hl]
          exact Or.inr rfl

end Modbus

namespace Modbus

/-! Claim theorems. -/

/-- C1, counterexample: the claim says the ModbusError carries the original
request function code, but `responseError` stores the response function code.
For a ReadCoils request answered by an exception response with function code
0x81 and data [0x02], send returns ModbusError{fc = 0x81, ec = 0x02}, and
0x81 is not the request function code 0x01. -/
theorem sendPdu_exception_fc_is_response_fc :
    sendPdu ⟨FuncCodeReadCoils, [0, 0, 0, 1]⟩ ⟨129, [2]⟩ = .error (.exception 129 2) ∧
      (129 : Nat) ≠ FuncCodeReadCoils :=
  ⟨rfl, by decide⟩

/-- C1, amended: when the decoded response function code differs from the
request function code, send returns a ModbusError whose function-code field is
the RESPONSE function code and whose exception-code field is the first byte of
the response data (0 when the data is empty); when the function codes match but
the response data is empty, send fails with the empty-response error; otherwise
send returns the decoded response PDU. -/
theorem sendPdu_dispatch_spec (request response : ProtocolDataUnit) :
    (response.functionCode ≠ request.functionCode →
      sendPdu request response =
        .error (.exception response.functionCode (response.data.headD 0)))
    ∧ (response.functionCode = request.functionCode → response.data = [] →
        sendPdu request response = .error .emptyResponse)
    ∧ (response.functionCode = request.functionCode → response.data ≠ [] →
        sendPdu request response = .ok response) := by
  unfold sendPdu responseError
  refine ⟨fun h => ?_, fun h1 h2 => ?_, fun h1 h2 => ?_⟩
  · simp [h]
  · simp [h1, h2]
  · simp [h1, h2]

/-- C1, witness for the amended theorem at concrete inputs. -/
theorem sendPdu_dispatch_spec_witness :
    sendPdu ⟨3, [0, 0, 0, 1]⟩ ⟨131, [2]⟩ = .error (.exception 131 2) ∧
    sendPdu ⟨3, [0, 0, 0, 1]⟩ ⟨3, []⟩ = .error .emptyResponse ∧
    sendPdu ⟨3, [0, 0, 0, 1]⟩ ⟨3, [2, 1, 3]⟩ = .ok ⟨3, [2, 1, 3]⟩ :=
  ⟨(sendPdu_dispatch_spec ⟨3, [0, 0, 0, 1]⟩ ⟨131, [2]⟩).1 (by decide),
   (sendPdu_dispatch_spec ⟨3, [0, 0, 0, 1]⟩ ⟨3, []⟩).2.1 rfl rfl,
   (sendPdu_dispatch_spec ⟨3, [0, 0, 0, 1]⟩ ⟨3, [2, 1, 3]⟩).2.2 rfl (by decide)⟩

/-- C2, evaluation at the failing input: for the spec example response
(function code 0x18, data 00 06 00 02 01 02 03 04) ReadFIFOQueue(0x04DE) does
NOT succeed: the code requires the 16-bit byte-count field (6) to equal
len(data) − 1 (7), so it returns the size-mismatch error instead of the
expected payload 01 02 03 04. -/
theorem readFIFOQueue_rejects_spec_example :
    ReadFIFOQueue 1246 ⟨FuncCodeReadFIFOQueue, [0, 6, 0, 2, 1, 2, 3, 4]⟩ =
      (.error (.mismatch "modbus: response data size does not match count"),
       [⟨FuncCodeReadFIFOQueue, [4, 222]⟩]) := by
  rfl

/-- C5: every argument outside the documented range yields a local validation
error and the transporter is never invoked (the sent-request list is empty). -/
theorem validation_blocks_send :
    (∀ address quantity response, (quantity < 1 ∨ quantity > 2000) →
        ∃ msg, ReadCoils address quantity response = (.error (.validation msg), []))
    ∧ (∀ address quantity response, (quantity < 1 ∨ quantity > 2000) →
        ∃ msg, ReadDiscreteInputs address quantity response = (.error (.validation msg), []))
    ∧ (∀ address quantity response, (quantity < 1 ∨ quantity > 125) →
        ∃ msg, ReadHoldingRegisters address quantity response = (.error (.validation msg), []))
    ∧ (∀ address quantity response, (quantity < 1 ∨ quantity > 125) →
        ∃ msg, ReadInputRegisters address quantity response = (.error (.validation msg), []))
    ∧ (∀ address quantity value response, (quantity < 1 ∨ quantity > 1968) →
        ∃ msg, WriteMultipleCoils address quantity value response =
          (.error (.validation msg), []))
    ∧ (∀ address quantity value response, (quantity < 1 ∨ quantity > 123) →
        ∃ msg, WriteMultipleRegisters address quantity value response =
          (.error (.validation msg), []))
    ∧ (∀ readAddress readQuantity writeAddress writeQuantity value response,
        (readQuantity < 1 ∨ readQuantity > 125 ∨
          writeQuantity < 1 ∨ writeQuantity > 121) →
        ∃ msg, ReadWriteMultipleRegisters readAddress readQuantity writeAddress
          writeQuantity value response = (.error (.validation msg), []))
    ∧ (∀ address value response, value ≠ 0xFF00 → value ≠ 0 →
        ∃ msg, WriteSingleCoil address value response = (.error (.validation msg), []))
    ∧ (∀ fileNumber recordNumber value count response,
        (fileNumber = 0 ∨ recordNumber > 0x270F ∨ count > 122) →
        ∃ msg, WriteFileRecord fileNumber recordNumber value count response =
          (.error (.validation msg), [])) := by
  refine ⟨?_, ?_, ?_, ?_, ?_, ?_, ?_, ?_, ?_⟩
  · intro a q r h
    unfold ReadCoils
    rw [if_pos h]
    exact ⟨_, rfl⟩
  · intro a q r h
    unfold ReadDiscreteInputs
    rw [if_pos h]
    exact ⟨_, rfl⟩
  · intro a q r h
    unfold ReadHoldingRegisters
    rw [if_pos h]
    exact ⟨_, rfl⟩
  · intro a q r h
    unfold ReadInputRegisters
    rw [if_pos h]
    exact ⟨_, rfl⟩
  · intro a q v r h
    unfold WriteMultipleCoils
    rw [if_pos h]
    exact ⟨_, rfl⟩
  · intro a q v r h
    unfold WriteMultipleRegisters
    rw [if_pos h]
    exact ⟨_, rfl⟩
  · intro ra rq wa wq v r h
    unfold ReadWriteMultipleRegisters
    by_cases h1 : rq < 1 ∨ rq > 125
    · rw [if_pos h1]
      exact ⟨_, rfl⟩
    · rw [if_neg h1, if_pos (by omega)]
      exact ⟨_, rfl⟩
  · intro a v r h1 h2
    unfold WriteSingleCoil
    rw [if_pos ⟨h1, h2⟩]
    exact ⟨_, rfl⟩
  · intro f rec v c r h
    unfold WriteFileRecord
    by_cases h0 : f = 0
    · rw [if_pos h0]
      exact ⟨_, rfl⟩
    · rw [if_neg h0]
      by_cases hr : rec > 0x270F
      · rw [if_pos hr]
        exact ⟨_, rfl⟩
      · rw [if_neg hr, if_pos (by omega)]
        exact ⟨_, rfl⟩

/-- C5, witness: quantity 0 is out of range for ReadCoils and nothing is sent. -/
theorem validation_blocks_send_witness :
    ((0 : Nat) < 1 ∨ (0 : Nat) > 2000) ∧
      ∃ msg, ReadCoils 5 0 ⟨1, [1, 255]⟩ = (.error (.validation msg), []) :=
  ⟨Or.inl (by decide), validation_blocks_send.1 5 0 ⟨1, [1, 255]⟩ (Or.inl (by decide))⟩

/-- C6, counterexample: the claim gives 0x0D as the first request data byte,
but the code writes 7 + 2·count = 11 = 0x0B for count = 2, so the built
request data differs from the claimed bytes. -/
theorem writeFileRecord_request_first_byte :
    writeFileRecordRequestData 4 1 [0x0DFE, 0x0020] 2 ≠
      [0x0D, 0x06, 0x00, 0x04, 0x00, 0x01, 0x00, 0x02, 0x0D, 0xFE, 0x00, 0x20] := by
  decide

/-- C6, amended: WriteFileRecord(4, 1, [0x0DFE, 0x0020], 2) builds the request
data 0B 06 00 04 00 01 00 02 0D FE 00 20 (length byte 7 + 2·count = 0x0B,
reference type 0x06, big-endian file number, record number and count, then the
registers big-endian); on a byte-identical echoed response the call validates
every field against the request, interprets the record bytes as big-endian
16-bit words, requires them to equal the request values, and succeeds. -/
theorem writeFileRecord_example_spec :
    writeFileRecordRequestData 4 1 [0x0DFE, 0x0020] 2 =
      [0x0B, 0x06, 0x00, 0x04, 0x00, 0x01, 0x00, 0x02, 0x0D, 0xFE, 0x00, 0x20] ∧
    WriteFileRecord 4 1 [0x0DFE, 0x0020] 2
        ⟨FuncCodeWriteFileRecord, writeFileRecordRequestData 4 1 [0x0DFE, 0x0020] 2⟩ =
      (.ok (),
       [⟨FuncCodeWriteFileRecord, writeFileRecordRequestData 4 1 [0x0DFE, 0x0020] 2⟩]) :=
  ⟨rfl, rfl⟩

/-- C7: dataBlock writes every 16-bit value big-endian in order, producing
exactly 2n bytes, and dataBlockSuffix is dataBlock of the values followed by
one byte len(suffix) mod 256 followed by the suffix verbatim. -/
theorem dataBlock_spec (values suffix : List Nat) (hv : ∀ v ∈ values, v < 65536) :
    dataBlock values = (values.map fun v => [v / 256, v % 256]).flatten
    ∧ (dataBlock values).length = 2 * values.length
    ∧ dataBlockSuffix suffix values = dataBlock values ++ suffix.length % 256 :: suffix :=
  ⟨dataBlock_eq_join values hv, dataBlock_length values, dataBlockSuffix_eq suffix values⟩

theorem read_payload_shape (res : Except MbError (List Nat)) (d : List Nat)
    (he : res = if d.headD 0 ≠ d.length - 1 then
        .error (.mismatch "modbus: response data size does not match count")
      else .ok d.tail) :
    (∀ results, res = .ok results →
        results = d.tail ∧ results.length = d.headD 0 ∧ results.length = d.length - 1)
    ∧ (d.headD 0 ≠ d.length - 1 →
        res = .error (.mismatch "modbus: response data size does not match count")) := by
  subst he
  constructor
  · intro results hres
    split at hres
    · exact absurd hres (by simp)
    · next hcount =>
      push_neg at hcount
      obtain rfl := Except.ok.inj hres
      refine ⟨rfl, ?_, ?_⟩
      · rw [List.length_tail]
        omega
      · rw [List.length_tail]
  · intro hcount
    rw [if_pos hcount]

/-- C7, witness at concrete values. -/
theorem dataBlock_spec_witness :
    dataBlock [299, 65535] = (([299, 65535] : List Nat).map fun v => [v / 256, v % 256]).flatten
    ∧ (dataBlock [299, 65535]).length = 2 * ([299, 65535] : List Nat).length
    ∧ dataBlockSuffix [9, 8, 7] [299, 65535] =
        dataBlock [299, 65535] ++ ([9, 8, 7] : List Nat).length % 256 :: [9, 8, 7] :=
  dataBlock_spec [299, 65535] [9, 8, 7] (by decide)

end Modbus

namespace Modbus

/-- C3: for every read-style operation with valid arguments, a returned payload
equals the response data after the byte-count byte and its length equals both
the byte-count field and len(response data) − 1; a byte-count byte that
differs from len(response data) − 1 yields the semantic-mismatch error. -/
theorem read_ops_payload_spec :
    (∀ address quantity resp, 1 ≤ quantity → quantity ≤ 2000 →
      resp.functionCode = FuncCodeReadCoils → resp.data ≠ [] →
      ((∀ results, (ReadCoils address quantity resp).1 = .ok results →
          results = resp.data.tail ∧ results.length = resp.data.headD 0 ∧
            results.length = resp.data.length - 1)
       ∧ (resp.data.headD 0 ≠ resp.data.length - 1 →
           (ReadCoils address quantity resp).1 =
             .error (.mismatch "modbus: response data size does not match count"))))
    ∧ (∀ address quantity resp, 1 ≤ quantity → quantity ≤ 2000 →
      resp.functionCode = FuncCodeReadDiscreteInputs → resp.data ≠ [] →
      ((∀ results, (ReadDiscreteInputs address quantity resp).1 = .ok results →
          results = resp.data.tail ∧ results.length = resp.data.headD 0 ∧
            results.length = resp.data.length - 1)
       ∧ (resp.data.headD 0 ≠ resp.data.length - 1 →
           (ReadDiscreteInputs address quantity resp).1 =
             .error (.mismatch "modbus: response data size does not match count"))))
    ∧ (∀ address quantity resp, 1 ≤ quantity → quantity ≤ 125 →
      resp.functionCode = FuncCodeReadHoldingRegisters → resp.data ≠ [] →
      ((∀ results, (ReadHoldingRegisters address quantity resp).1 = .ok results →
          results = resp.data.tail ∧ results.length = resp.data.headD 0 ∧
            results.length = resp.data.length - 1)
       ∧ (resp.data.headD 0 ≠ resp.data.length - 1 →
           (ReadHoldingRegisters address quantity resp).1 =
             .error (.mismatch "modbus: response data size does not match count"))))
    ∧ (∀ address quantity resp, 1 ≤ quantity → quantity ≤ 125 →
      resp.functionCode = FuncCodeReadInputRegisters → resp.data ≠ [] →
      ((∀ results, (ReadInputRegisters address quantity resp).1 = .ok results →
          results = resp.data.tail ∧ results.length = resp.data.headD 0 ∧
            results.length = resp.data.length - 1)
       ∧ (resp.data.headD 0 ≠ resp.data.length - 1 →
           (ReadInputRegisters address quantity resp).1 =
             .error (.mismatch "modbus: response data size does not match count"))))
    ∧ (∀ readAddress readQuantity writeAddress writeQuantity value resp,
      1 ≤ readQuantity → readQuantity ≤ 125 → 1 ≤ writeQuantity → writeQuantity ≤ 121 →
      resp.functionCode = FuncCodeReadWriteMultipleRegisters → resp.data ≠ [] →
      ((∀ results, (ReadWriteMultipleRegisters readAddress readQuantity writeAddress
            writeQuantity value resp).1 = .ok results →
          results = resp.data.tail ∧ results.length = resp.data.headD 0 ∧
            results.length = resp.data.length - 1)
       ∧ (resp.data.headD 0 ≠ resp.data.length - 1 →
           (ReadWriteMultipleRegisters readAddress readQuantity writeAddress
             writeQuantity value resp).1 =
             .error (.mismatch "modbus: response data size does not match count")))) := by
  refine ⟨?_, ?_, ?_, ?_, ?_⟩
  · intro a q resp hq1 hq2 hfc hne
    exact read_payload_shape _ _ (ReadCoils_eval a q resp hq1 hq2 hfc hne)
  · intro a q resp hq1 hq2 hfc hne
    exact read_payload_shape _ _ (ReadDiscreteInputs_eval a q resp hq1 hq2 hfc hne)
  · intro a q resp hq1 hq2 hfc hne
    exact read_payload_shape _ _ (ReadHoldingRegisters_eval a q resp hq1 hq2 hfc hne)
  · intro a q resp hq1 hq2 hfc hne
    exact read_payload_shape _ _ (ReadInputRegisters_eval a q resp hq1 hq2 hfc hne)
  · intro ra rq wa wq v resp hr1 hr2 hw1 hw2 hfc hne
    exact read_payload_shape _ _
      (ReadWriteMultipleRegisters_eval ra rq wa wq v resp hr1 hr2 hw1 hw2 hfc hne)

/-- C3, witness: ReadHoldingRegisters(0x006B, 3) with the spec scenario
response data 06 02 2B 00 00 00 64 returns the payload 02 2B 00 00 00 64 of
length 6, equal to the byte-count field and to len(data) minus one. -/
theorem read_ops_payload_spec_witness :
    (∀ results,
        (ReadHoldingRegisters 107 3 ⟨3, [6, 2, 43, 0, 0, 0, 100]⟩).1 = .ok results →
        results = [2, 43, 0, 0, 0, 100] ∧ results.length = 6 ∧ results.length = 6)
    ∧ ((6 : Nat) ≠ 6 →
        (ReadHoldingRegisters 107 3 ⟨3, [6, 2, 43, 0, 0, 0, 100]⟩).1 =
          .error (.mismatch "modbus: response data size does not match count")) :=
  read_ops_payload_spec.2.2.1 107 3 ⟨3, [6, 2, 43, 0, 0, 0, 100]⟩
    (by decide) (by decide) rfl (by decide)

end Modbus

namespace Modbus

/-- C8: the TLS transporter Send reads exactly 7 header bytes (failing when the
stream is shorter), parses the 16-bit big-endian length field at offset 4,
fails when that length is 0 or greater than 254 = tcpMaxLength − 6 (flushing
in both failure cases, recorded by the boolean), and otherwise reads exactly
length − 1 further bytes and returns a response of exactly 6 + length bytes,
the 7-byte header concatenated with the body. -/
theorem tlsSend_spec :
    (∀ req stream, stream.length < 7 →
        tlsSend req stream = (.error .readError, false))
    ∧ (∀ req stream, stream.length ≥ 7 →
        bigEndianUint16 (stream.drop 4) = 0 →
        tlsSend req stream =
          (.error (.mismatch "modbus: length in response header must not be zero"), true))
    ∧ (∀ req stream, stream.length ≥ 7 →
        bigEndianUint16 (stream.drop 4) > 254 →
        tlsSend req stream =
          (.error (.mismatch "modbus: length in response header must not be greater"), true))
    ∧ tcpMaxLength - (tcpHeaderSize - 1) = 254
    ∧ (∀ req stream, stream.length ≥ 7 →
        1 ≤ bigEndianUint16 (stream.drop 4) →
        bigEndianUint16 (stream.drop 4) ≤ 254 →
        stream.length ≥ 6 + bigEndianUint16 (stream.drop 4) →
        tlsSend req stream =
          (.ok (stream.take (6 + bigEndianUint16 (stream.drop 4))), false)
        ∧ (stream.take (6 + bigEndianUint16 (stream.drop 4))).length =
            6 + bigEndianUint16 (stream.drop 4)) := by
  refine ⟨?_, ?_, ?_, rfl, ?_⟩
  · intro req stream h
    unfold tlsSend tcpHeaderSize
    rw [if_pos h]
  · intro req stream h h0
    simp only [tlsSend, tcpHeaderSize, tcpMaxLength, h0]
    rw [if_neg (by omega)]
    simp
  · intro req stream h hgt
    simp only [tlsSend, tcpHeaderSize, tcpMaxLength]
    rw [if_neg (by omega), if_neg (by omega), if_pos (by omega)]
  · intro req stream h h1 h2 h3
    simp only [tlsSend, tcpHeaderSize, tcpMaxLength]
    rw [if_neg (by omega), if_neg (by omega), if_neg (by omega), if_neg (by omega)]
    constructor
    · have harith : bigEndianUint16 (stream.drop 4) + (7 - 1) =
          6 + bigEndianUint16 (stream.drop 4) := by omega
      rw [harith]
    · rw [List.length_take]
      omega

/-- C8, witness at concrete streams: a short stream, a zero length field, an
oversized length field (0x0100 = 256 > 254), and the spec scenario response
with length field 9 returning all 15 = 6 + 9 bytes. -/
theorem tlsSend_spec_witness :
    tlsSend [] [1, 2, 3] = (.error .readError, false)
    ∧ tlsSend [] [0, 1, 0, 0, 0, 0, 255] =
        (.error (.mismatch "modbus: length in response header must not be zero"), true)
    ∧ tlsSend [] [0, 1, 0, 0, 1, 0, 255] =
        (.error (.mismatch "modbus: length in response header must not be greater"), true)
    ∧ (tlsSend [] [0, 1, 0, 0, 0, 9, 255, 3, 6, 2, 43, 0, 0, 0, 100] =
        (.ok [0, 1, 0, 0, 0, 9, 255, 3, 6, 2, 43, 0, 0, 0, 100], false)
       ∧ (([0, 1, 0, 0, 0, 9, 255, 3, 6, 2, 43, 0, 0, 0, 100] : List Nat).take 15).length = 15) :=
  ⟨tlsSend_spec.1 [] [1, 2, 3] (by decide),
   tlsSend_spec.2.1 [] [0, 1, 0, 0, 0, 0, 255] (by decide) (by decide),
   tlsSend_spec.2.2.1 [] [0, 1, 0, 0, 1, 0, 255] (by decide) (by decide),
   tlsSend_spec.2.2.2.2 [] [0, 1, 0, 0, 0, 9, 255, 3, 6, 2, 43, 0, 0, 0, 100]
     (by decide) (by decide) (by decide) (by decide)⟩

end Modbus

namespace Modbus

theorem echo4_flip_result (x y i b : Nat)
    (hx : x < 65536) (hy : y < 65536) (hi : i < 4)
    (hb : b ≠ (dataBlock [x, y]).getD i 0) (m1 m2 m3 : String) :
    ∃ msg,
      (if ((dataBlock [x, y]).set i b).length ≠ 4 then
          (.error (.mismatch m1) : Except MbError (List Nat))
       else if x ≠ bigEndianUint16 ((dataBlock [x, y]).set i b) then
          .error (.mismatch m2)
       else if y ≠ bigEndianUint16 (((dataBlock [x, y]).set i b).drop 2) then
          .error (.mismatch m3)
       else
          .ok (((dataBlock [x, y]).set i b).drop 2)) = .error (.mismatch msg) := by
  have hd : dataBlock [x, y] = [x / 256, x % 256, y / 256, y % 256] := by
    simp [dataBlock, uint16be, Nat.mod_eq_of_lt hx, Nat.mod_eq_of_lt hy]
  rw [hd] at hb ⊢
  interval_cases i
  · have hb' : b ≠ x / 256 := by simpa using hb
    refine ⟨m2, ?_⟩
    simp only [List.set_cons_zero]
    rw [if_neg (by simp), if_pos (by simp only [bigEndianUint16]; omega)]
  · have hb' : b ≠ x % 256 := by simpa using hb
    refine ⟨m2, ?_⟩
    simp only [List.set_cons_succ, List.set_cons_zero]
    rw [if_neg (by simp), if_pos (by simp only [bigEndianUint16]; omega)]
  · have hb' : b ≠ y / 256 := by simpa using hb
    refine ⟨m3, ?_⟩
    simp only [List.set_cons_succ, List.set_cons_zero]
    rw [if_neg (by simp), if_neg (by simp only [bigEndianUint16]; omega)]
    rw [if_pos (by simp only [List.drop, bigEndianUint16]; omega)]
  · have hb' : b ≠ y % 256 := by simpa using hb
    refine ⟨m3, ?_⟩
    simp only [List.set_cons_succ, List.set_cons_zero]
    rw [if_neg (by simp), if_neg (by simp only [bigEndianUint16]; omega)]
    rw [if_pos (by simp only [List.drop, bigEndianUint16]; omega)]

theorem echo6_flip_result (x y z i b : Nat)
    (hx : x < 65536) (hy : y < 65536) (hz : z < 65536) (hi : i < 6)
    (hb : b ≠ (dataBlock [x, y, z]).getD i 0) (m1 m2 m3 m4 : String) :
    ∃ msg,
      (if ((dataBlock [x, y, z]).set i b).length ≠ 6 then
          (.error (.mismatch m1) : Except MbError (List Nat))
       else if x ≠ bigEndianUint16 ((dataBlock [x, y, z]).set i b) then
          .error (.mismatch m2)
       else if y ≠ bigEndianUint16 (((dataBlock [x, y, z]).set i b).drop 2) then
          .error (.mismatch m3)
       else if z ≠ bigEndianUint16 (((dataBlock [x, y, z]).set i b).drop 4) then
          .error (.mismatch m4)
       else
          .ok (((dataBlock [x, y, z]).set i b).drop 2)) = .error (.mismatch msg) := by
  have hd : dataBlock [x, y, z] = [x / 256, x % 256, y / 256, y % 256, z / 256, z % 256] := by
    simp [dataBlock, uint16be, Nat.mod_eq_of_lt hx, Nat.mod_eq_of_lt hy, Nat.mod_eq_of_lt hz]
  rw [hd] at hb ⊢
  interval_cases i
  · have hb' : b ≠ x / 256 := by simpa using hb
    refine ⟨m2, ?_⟩
    simp only [List.set_cons_zero]
    rw [if_neg (by simp), if_pos (by simp only [bigEndianUint16]; omega)]
  · have hb' : b ≠ x % 256 := by simpa using hb
    refine ⟨m2, ?_⟩
    simp only [List.set_cons_succ, List.set_cons_zero]
    rw [if_neg (by simp), if_pos (by simp only [bigEndianUint16]; omega)]
  · have hb' : b ≠ y / 256 := by simpa using hb
    refine ⟨m3, ?_⟩
    simp only [List.set_cons_succ, List.set_cons_zero]
    rw [if_neg (by simp), if_neg (by simp only [bigEndianUint16]; omega)]
    rw [if_pos (by simp only [List.drop, bigEndianUint16]; omega)]
  · have hb' : b ≠ y % 256 := by simpa using hb
    refine ⟨m3, ?_⟩
    simp only [List.set_cons_succ, List.set_cons_zero]
    rw [if_neg (by simp), if_neg (by simp only [bigEndianUint16]; omega)]
    rw [if_pos (by simp only [List.drop, bigEndianUint16]; omega)]
  · have hb' : b ≠ z / 256 := by simpa using hb
    refine ⟨m4, ?_⟩
    simp only [List.set_cons_succ, List.set_cons_zero]
    rw [if_neg (by simp), if_neg (by simp only [bigEndianUint16]; omega)]
    rw [if_neg (by simp only [List.drop, bigEndianUint16]; omega)]
    rw [if_pos (by simp only [List.drop, bigEndianUint16]; omega)]
  · have hb' : b ≠ z % 256 := by simpa using hb
    refine ⟨m4, ?_⟩
    simp only [List.set_cons_succ, List.set_cons_zero]
    rw [if_neg (by simp), if_neg (by simp only [bigEndianUint16]; omega)]
    rw [if_neg (by simp only [List.drop, bigEndianUint16]; omega)]
    rw [if_pos (by simp only [List.drop, bigEndianUint16]; omega)]

end Modbus

namespace Modbus

/-- C4, counterexample: for WriteMultipleCoils (0x0F) with valid arguments a
byte-identical echo of the request data (address, quantity, byte count,
payload — 6 bytes here) is NOT accepted: the code requires a 4-byte response,
so the echoed request data yields the size-mismatch error instead of success. -/
theorem writeMultipleCoils_full_echo_fails :
    (1 ≤ (1 : Nat) ∧ (1 : Nat) ≤ 1968) ∧
    (WriteMultipleCoils 0 1 [1]
        ⟨FuncCodeWriteMultipleCoils, dataBlockSuffix [1] [0, 1]⟩).1 =
      .error (.mismatch "modbus: response data size does not match expected") :=
  ⟨by decide, rfl⟩

/-- C4, amended: for WriteSingleCoil (0x05), WriteSingleRegister (0x06) and
MaskWriteRegister (0x16) with valid arguments, a byte-identical echo of the
request data succeeds and returns the echoed value bytes, and changing any
single byte of that echo yields a semantic-mismatch error.  For
WriteMultipleCoils (0x0F) and WriteMultipleRegisters (0x10) the accepted
response is not an echo of the full request data but exactly its first four
bytes (address and quantity big-endian); such a response succeeds returning
the quantity bytes, and changing any single byte of it yields a
semantic-mismatch error. -/
theorem echo_ops_spec :
    (∀ address value, address < 65536 → (value = 0xFF00 ∨ value = 0) →
      (WriteSingleCoil address value
          ⟨FuncCodeWriteSingleCoil, dataBlock [address, value]⟩).1 =
        .ok (uint16be value))
    ∧ (∀ address value i b, address < 65536 → (value = 0xFF00 ∨ value = 0) →
        i < 4 → b ≠ (dataBlock [address, value]).getD i 0 →
        ∃ msg, (WriteSingleCoil address value
            ⟨FuncCodeWriteSingleCoil, (dataBlock [address, value]).set i b⟩).1 =
          .error (.mismatch msg))
    ∧ (∀ address value, address < 65536 → value < 65536 →
      (WriteSingleRegister address value
          ⟨FuncCodeWriteSingleRegister, dataBlock [address, value]⟩).1 =
        .ok (uint16be value))
    ∧ (∀ address value i b, address < 65536 → value < 65536 →
        i < 4 → b ≠ (dataBlock [address, value]).getD i 0 →
        ∃ msg, (WriteSingleRegister address value
            ⟨FuncCodeWriteSingleRegister, (dataBlock [address, value]).set i b⟩).1 =
          .error (.mismatch msg))
    ∧ (∀ address quantity payload, address < 65536 → 1 ≤ quantity → quantity ≤ 1968 →
      (WriteMultipleCoils address quantity payload
          ⟨FuncCodeWriteMultipleCoils, dataBlock [address, quantity]⟩).1 =
        .ok (uint16be quantity))
    ∧ (∀ address quantity payload i b, address < 65536 → 1 ≤ quantity → quantity ≤ 1968 →
        i < 4 → b ≠ (dataBlock [address, quantity]).getD i 0 →
        ∃ msg, (WriteMultipleCoils address quantity payload
            ⟨FuncCodeWriteMultipleCoils, (dataBlock [address, quantity]).set i b⟩).1 =
          .error (.mismatch msg))
    ∧ (∀ address quantity payload, address < 65536 → 1 ≤ quantity → quantity ≤ 123 →
      (WriteMultipleRegisters address quantity payload
          ⟨FuncCodeWriteMultipleRegisters, dataBlock [address, quantity]⟩).1 =
        .ok (uint16be quantity))
    ∧ (∀ address quantity payload i b, address < 65536 → 1 ≤ quantity → quantity ≤ 123 →
        i < 4 → b ≠ (dataBlock [address, quantity]).getD i 0 →
        ∃ msg, (WriteMultipleRegisters address quantity payload
            ⟨FuncCodeWriteMultipleRegisters, (dataBlock [address, quantity]).set i b⟩).1 =
          .error (.mismatch msg))
    ∧ (∀ address andMask orMask, address < 65536 → andMask < 65536 → orMask < 65536 →
      (MaskWriteRegister address andMask orMask
          ⟨FuncCodeMaskWriteRegister, dataBlock [address, andMask, orMask]⟩).1 =
        .ok (uint16be andMask ++ uint16be orMask))
    ∧ (∀ address andMask orMask i b,
        address < 65536 → andMask < 65536 → orMask < 65536 →
        i < 6 → b ≠ (dataBlock [address, andMask, orMask]).getD i 0 →
        ∃ msg, (MaskWriteRegister address andMask orMask
            ⟨FuncCodeMaskWriteRegister, (dataBlock [address, andMask, orMask]).set i b⟩).1 =
          .error (.mismatch msg)) := by
  refine ⟨?_, ?_, ?_, ?_, ?_, ?_, ?_, ?_, ?_, ?_⟩
  · intro address value ha hval
    have hv65 : value < 65536 := by rcases hval with h | h <;> omega
    rw [WriteSingleCoil_eval address value (dataBlock [address, value]) hval
      (by simp [dataBlock, uint16be])]
    have hd : dataBlock [address, value] =
        [address / 256, address % 256, value / 256, value % 256] := by
      simp [dataBlock, uint16be, Nat.mod_eq_of_lt ha, Nat.mod_eq_of_lt hv65]
    rw [hd]
    rw [if_neg (by simp), if_neg (by simp only [bigEndianUint16]; omega),
        if_neg (by simp only [List.drop, bigEndianUint16]; omega)]
    simp [uint16be, Nat.mod_eq_of_lt hv65]
  · intro address value i b ha hval hi hb
    have hv65 : value < 65536 := by rcases hval with h | h <;> omega
    have hne : (dataBlock [address, value]).set i b ≠ [] := by
      have hlen : ((dataBlock [address, value]).set i b).length = 4 := by
        simp [List.length_set, dataBlock_length]
      intro hcon
      rw [hcon] at hlen
      simp at hlen
    obtain ⟨msg, hm⟩ := echo4_flip_result address value i b ha hv65 hi hb
      "modbus: response data size does not match expected"
      "modbus: response address does not match request"
      "modbus: response value does not match request"
    refine ⟨msg, ?_⟩
    rw [WriteSingleCoil_eval address value _ hval hne]
    exact hm
  · intro address value ha hv65
    rw [WriteSingleRegister_eval address value (dataBlock [address, value])
      (by simp [dataBlock, uint16be])]
    have hd : dataBlock [address, value] =
        [address / 256, address % 256, value / 256, value % 256] := by
      simp [dataBlock, uint16be, Nat.mod_eq_of_lt ha, Nat.mod_eq_of_lt hv65]
    rw [hd]
    rw [if_neg (by simp), if_neg (by simp only [bigEndianUint16]; omega),
        if_neg (by simp only [List.drop, bigEndianUint16]; omega)]
    simp [uint16be, Nat.mod_eq_of_lt hv65]
  · intro address value i b ha hv65 hi hb
    have hne : (dataBlock [address, value]).set i b ≠ [] := by
      have hlen : ((dataBlock [address, value]).set i b).length = 4 := by
        simp [List.length_set, dataBlock_length]
      intro hcon
      rw [hcon] at hlen
      simp at hlen
    obtain ⟨msg, hm⟩ := echo4_flip_result address value i b ha hv65 hi hb
      "modbus: response data size does not match expected"
      "modbus: response address does not match request"
      "modbus: response value does not match request"
    refine ⟨msg, ?_⟩
    rw [WriteSingleRegister_eval address value _ hne]
    exact hm
  · intro address quantity payload ha hq1 hq2
    have hq65 : quantity < 65536 := by omega
    rw [WriteMultipleCoils_eval address quantity payload (dataBlock [address, quantity])
      hq1 hq2 (by simp [dataBlock, uint16be])]
    have hd : dataBlock [address, quantity] =
        [address / 256, address % 256, quantity / 256, quantity % 256] := by
      simp [dataBlock, uint16be, Nat.mod_eq_of_lt ha, Nat.mod_eq_of_lt hq65]
    rw [hd]
    rw [if_neg (by simp), if_neg (by simp only [bigEndianUint16]; omega),
        if_neg (by simp only [List.drop, bigEndianUint16]; omega)]
    simp [uint16be, Nat.mod_eq_of_lt hq65]
  · intro address quantity payload i b ha hq1 hq2 hi hb
    have hq65 : quantity < 65536 := by omega
    have hne : (dataBlock [address, quantity]).set i b ≠ [] := by
      have hlen : ((dataBlock [address, quantity]).set i b).length = 4 := by
        simp [List.length_set, dataBlock_length]
      intro hcon
      rw [hcon] at hlen
      simp at hlen
    obtain ⟨msg, hm⟩ := echo4_flip_result address quantity i b ha hq65 hi hb
      "modbus: response data size does not match expected"
      "modbus: response address does not match request"
      "modbus: response quantity does not match request"
    refine ⟨msg, ?_⟩
    rw [WriteMultipleCoils_eval address quantity payload _ hq1 hq2 hne]
    exact hm
  · intro address quantity payload ha hq1 hq2
    have hq65 : quantity < 65536 := by omega
    rw [WriteMultipleRegisters_eval address quantity payload (dataBlock [address, quantity])
      hq1 hq2 (by simp [dataBlock, uint16be])]
    have hd : dataBlock [address, quantity] =
        [address / 256, address % 256, quantity / 256, quantity % 256] := by
      simp [dataBlock, uint16be, Nat.mod_eq_of_lt ha, Nat.mod_eq_of_lt hq65]
    rw [hd]
    rw [if_neg (by simp), if_neg (by simp only [bigEndianUint16]; omega),
        if_neg (by simp only [List.drop, bigEndianUint16]; omega)]
    simp [uint16be, Nat.mod_eq_of_lt hq65]
  · intro address quantity payload i b ha hq1 hq2 hi hb
    have hq65 : quantity < 65536 := by omega
    have hne : (dataBlock [address, quantity]).set i b ≠ [] := by
      have hlen : ((dataBlock [address, quantity]).set i b).length = 4 := by
        simp [List.length_set, dataBlock_length]
      intro hcon
      rw [hcon] at hlen
      simp at hlen
    obtain ⟨msg, hm⟩ := echo4_flip_result address quantity i b ha hq65 hi hb
      "modbus: response data size does not match expected"
      "modbus: response address does not match request"
      "modbus: response quantity does not match request"
    refine ⟨msg, ?_⟩
    rw [WriteMultipleRegisters_eval address quantity payload _ hq1 hq2 hne]
    exact hm
  · intro address andMask orMask ha hy hz
    rw [MaskWriteRegister_eval address andMask orMask (dataBlock [address, andMask, orMask])
      (by simp [dataBlock, uint16be])]
    have hd : dataBlock [address, andMask, orMask] =
        [address / 256, address % 256, andMask / 256, andMask % 256,
         orMask / 256, orMask % 256] := by
      simp [dataBlock, uint16be, Nat.mod_eq_of_lt ha, Nat.mod_eq_of_lt hy,
        Nat.mod_eq_of_lt hz]
    rw [hd]
    rw [if_neg (by simp), if_neg (by simp only [bigEndianUint16]; omega),
        if_neg (by simp only [List.drop, bigEndianUint16]; omega),
        if_neg (by simp only [List.drop, bigEndianUint16]; omega)]
    simp [uint16be, Nat.mod_eq_of_lt hy, Nat.mod_eq_of_lt hz]
  · intro address andMask orMask i b ha hy hz hi hb
    have hne : (dataBlock [address, andMask, orMask]).set i b ≠ [] := by
      have hlen : ((dataBlock [address, andMask, orMask]).set i b).length = 6 := by
        simp [List.length_set, dataBlock_length]
      intro hcon
      rw [hcon] at hlen
      simp at hlen
    obtain ⟨msg, hm⟩ := echo6_flip_result address andMask orMask i b ha hy hz hi hb
      "modbus: response data size does not match expected"
      "modbus: response address does not match request"
      "modbus: response AND-mask does not match request"
      "modbus: response OR-mask does not match request"
    refine ⟨msg, ?_⟩
    rw [MaskWriteRegister_eval address andMask orMask _ hne]
    exact hm

/-- C4, witness: WriteSingleCoil(0x00AC, 0xFF00) accepts a byte-identical
echo returning FF 00, and flipping echoed byte 1 to 9 yields a mismatch. -/
theorem echo_ops_spec_witness :
    (WriteSingleCoil 172 65280 ⟨FuncCodeWriteSingleCoil, dataBlock [172, 65280]⟩).1 =
      .ok (uint16be 65280)
    ∧ (∃ msg, (WriteSingleCoil 172 65280
        ⟨FuncCodeWriteSingleCoil, (dataBlock [172, 65280]).set 1 9⟩).1 =
          .error (.mismatch msg)) :=
  ⟨echo_ops_spec.1 172 65280 (by decide) (Or.inl rfl),
   echo_ops_spec.2.1 172 65280 1 9 (by decide) (Or.inl rfl) (by decide) (by decide)⟩

end Modbus

namespace Modbus

/-- C9: readDeviceIdentification fails unless the response data starts with
MEI type 0x0E and the echoed readDeviceIDCode; fails when the more-follows
flag is neither 0x00 nor 0xFF; fails with the explicit unsupported-message
when the next-object-id byte is nonzero; and otherwise parses
numberOfObjects (object id, length, value) triples into the object map. -/
theorem readDeviceIdentification_spec :
    (∀ objectID code resp,
      resp.functionCode = FuncCodeReadDeviceIdentification →
      resp.data.take 2 ≠ [14, code] →
      ∃ e, (readDeviceIdentification objectID code resp).1 = .error e)
    ∧ (∀ objectID code conf mf rest resp,
      resp.functionCode = FuncCodeReadDeviceIdentification →
      resp.data = 14 :: code :: conf :: mf :: rest →
      mf ≠ 0 → mf ≠ 255 →
      (readDeviceIdentification objectID code resp).1 =
        .error (.mismatch "modbus: invalid response more follows flag"))
    ∧ (∀ objectID code conf mf nxt n rest resp,
      resp.functionCode = FuncCodeReadDeviceIdentification →
      resp.data = 14 :: code :: conf :: mf :: nxt :: n :: rest →
      (mf = 0 ∨ mf = 255) → nxt ≠ 0 →
      (readDeviceIdentification objectID code resp).1 =
        .error (.mismatch "modbus: currently not supporting multi-transaction responses"))
    ∧ (∀ objectID code conf mf objs resp,
      resp.functionCode = FuncCodeReadDeviceIdentification →
      resp.data = 14 :: code :: conf :: mf :: 0 :: objs.length :: encodeObjects objs →
      (mf = 0 ∨ mf = 255) →
      (readDeviceIdentification objectID code resp).1 = .ok objs) := by
  refine ⟨?_, ?_, ?_, ?_⟩
  · intro objectID code resp hfc htake
    unfold readDeviceIdentification
    rcases hdata : resp.data with _ | ⟨b0, rest0⟩
    · have hempty : sendPdu ⟨FuncCodeReadDeviceIdentification, [14, code, objectID]⟩ resp =
          .error .emptyResponse := by
        unfold sendPdu
        rw [if_neg (by simp [hfc]), if_pos hdata]
      simp only [hempty]
      exact ⟨_, rfl⟩
    · have hne : resp.data ≠ [] := by
        rw [hdata]
        simp
      have hsend := sendPdu_of_match
        ⟨FuncCodeReadDeviceIdentification, [14, code, objectID]⟩ resp hfc hne
      by_cases hb0 : b0 = 14
      · subst hb0
        rcases rest0 with _ | ⟨b1, rest1⟩
        · simp [hsend, hdata]
        · have hb1 : b1 ≠ code := by
            rw [hdata] at htake
            simpa using htake
          simp [hsend, hdata, hb1]
      · simp [hsend, hdata, hb0]
  · intro objectID code conf mf rest resp hfc hdata hmf0 hmf255
    have hne : resp.data ≠ [] := by
      rw [hdata]
      simp
    have hsend := sendPdu_of_match
      ⟨FuncCodeReadDeviceIdentification, [14, code, objectID]⟩ resp hfc hne
    unfold readDeviceIdentification
    simp [hsend, hdata, conformity_guard_false, hmf0, hmf255]
  · intro objectID code conf mf nxt n rest resp hfc hdata hmf hnxt
    have hne : resp.data ≠ [] := by
      rw [hdata]
      simp
    have hsend := sendPdu_of_match
      ⟨FuncCodeReadDeviceIdentification, [14, code, objectID]⟩ resp hfc hne
    have hmfc : ¬(mf ≠ 0 ∧ mf ≠ 255) := by
      rcases hmf with h | h <;> simp [h]
    unfold readDeviceIdentification
    simp [hsend, hdata, conformity_guard_false, hmfc, hnxt]
  · intro objectID code conf mf objs resp hfc hdata hmf
    have hne : resp.data ≠ [] := by
      rw [hdata]
      simp
    have hsend := sendPdu_of_match
      ⟨FuncCodeReadDeviceIdentification, [14, code, objectID]⟩ resp hfc hne
    have hmfc : ¬(mf ≠ 0 ∧ mf ≠ 255) := by
      rcases hmf with h | h <;> simp [h]
    unfold readDeviceIdentification
    simp [hsend, hdata, conformity_guard_false, hmfc, parseDeviceObjects_encodeObjects]

/-- C9, witness: the spec basic-identification scenario with two objects. -/
theorem readDeviceIdentification_spec_witness :
    (readDeviceIdentification 0 1 ⟨43, [14, 1, 0, 0, 0, 2, 0, 1, 86, 1, 1, 87]⟩).1 =
      .ok [(0, [86]), (1, [87])] :=
  readDeviceIdentification_spec.2.2.2 0 1 0 0 [(0, [86]), (1, [87])]
    ⟨43, [14, 1, 0, 0, 0, 2, 0, 1, 86, 1, 1, 87]⟩ rfl rfl (Or.inl rfl)

/-- C10: for every conformity-level byte b the guard (b AND 0x01) > 3 is
false, so readDeviceIdentification can never return the conformity-level
rejection: no response is rejected because of its conformity byte. -/
theorem conformity_branch_unreachable :
    (∀ b, conformityLevelInvalid b = false)
    ∧ (∀ objectID code resp,
        isConformityError (readDeviceIdentification objectID code resp).1 = false) := by
  refine ⟨conformity_guard_false, ?_⟩
  intro objectID code resp
  unfold readDeviceIdentification
  cases hsend : sendPdu ⟨FuncCodeReadDeviceIdentification, [14, code, objectID]⟩ resp with
  | error e =>
    simp only [hsend]
    rcases sendPdu_error_shape _ _ _ hsend with ⟨fc, ec, rfl⟩ | rfl <;> rfl
  | ok val =>
    simp only [hsend]
    rcases hdd : val.data with _ | ⟨b0, _ | ⟨b1, _ | ⟨b2, _ | ⟨b3, _ | ⟨b4, _ | ⟨b5, rest⟩⟩⟩⟩⟩⟩
    · rfl
    · simp only []
      split
      · rfl
      · rfl
    · simp only []
      split
      · rfl
      · split
        · rfl
        · rfl
    · simp only []
      split
      · rfl
      · split
        · rfl
        · split
          · next h =>
            rw [conformity_guard_false] at h
            exact absurd h (by simp)
          · rfl
    · simp only []
      split
      · rfl
      · split
        · rfl
        · split
          · next h =>
            rw [conformity_guard_false] at h
            exact absurd h (by simp)
          · split
            · rfl
            · rfl
    · simp only []
      split
      · rfl
      · split
        · rfl
        · split
          · next h =>
            rw [conformity_guard_false] at h
            exact absurd h (by simp)
          · split
            · rfl
            · rfl
    · simp only []
      split
      · rfl
      · split
        · rfl
        · split
          · next h =>
            rw [conformity_guard_false] at h
            exact absurd h (by simp)
          · split
            · rfl
            · split
              · rfl
              · rcases parseDeviceObjects_cases b5 rest with ⟨l, hl⟩ | hl <;>
                  rw [hl] <;> rfl

end Modbus
